import Mathlib

/-!
Verification of the mutation-reconstruction component of the GFP
prediction notebook (src/paper/gfp_prediction.ipynb).

The component consists of three Python functions:

  def aa_pos(tok):
      if not tok: return tok
      else: return int(tok[2:-1])

  def aa_letter(tok):
      if not tok: return tok
      else: return tok[-1]

  def mut2seq(mutation_string, wt_sequence, delimiter=":"):
      if mutation_string is None or mutation_string == "":
          return wt_sequence
      mutations = mutation_string.split(delimiter)
      mutant_sequence = list(wt_sequence)
      for tok in mutations:
          position = aa_pos(tok)
          letter = aa_letter(tok)
          if position == 0: raise ValueError(...)
          if position > len(wt_sequence): raise ValueError(...)
          mutant_sequence[position] = letter
      return "".join(l for l in mutant_sequence)

  def count_mutations(x):
      if x == "": return 0
      else: return len(x.split(":"))

The embedding below works on explicit character lists.  Python runtime
errors that the code can actually raise are reified as constructors of
a dedicated error type: the ValueError raised by int() on a
non-numeric string, the two explicit ValueError raises in mut2seq, the
TypeError from comparing a string with an integer, the IndexError from
an out-of-range list assignment, the ValueError from splitting on an
empty separator, and the AttributeError from calling .split on None.
-/

/-- Errors observable from the Python code, one constructor per distinct
runtime failure site. -/
inductive PyErr where
  /-- ValueError from int() in aa_pos: the position slice does not parse. -/
  | malformedToken : PyErr
  /-- The two explicit ValueError raises in mut2seq (position 0, or
  position greater than the reference length). -/
  | invalidPosition : PyErr
  /-- TypeError from evaluating a string-versus-int comparison. -/
  | typeError : PyErr
  /-- IndexError from an out-of-range list assignment. -/
  | indexError : PyErr
  /-- ValueError from str.split with an empty separator. -/
  | emptySeparator : PyErr
  /-- AttributeError from calling .split on None. -/
  | attributeError : PyErr
deriving DecidableEq, Repr

/-- The heterogeneous return of aa_pos: the empty token is passed through
as the (falsy) string itself, every other token yields an integer. -/
inductive PosVal where
  | str : List Char → PosVal
  | int : Int → PosVal
deriving DecidableEq, Repr

/-- Decimal value of a digit list (most significant first). -/
def digitsToNat (l : List Char) : Nat :=
  l.foldl (fun a c => a * 10 + (c.toNat - 48)) 0

/-- Python int() applied to a string, restricted to the shapes the
notebook can feed it: an optional single sign followed by decimal
digits.  Every other string raises ValueError, modelled as none. -/
def pyInt (l : List Char) : Option Int :=
  match l with
  | [] => none
  | '-' :: rest =>
      if rest ≠ [] ∧ rest.all Char.isDigit then some (-(digitsToNat rest : Int)) else none
  | '+' :: rest =>
      if rest ≠ [] ∧ rest.all Char.isDigit then some ((digitsToNat rest : Int)) else none
  | _ =>
      if l.all Char.isDigit then some ((digitsToNat l : Int)) else none

/-- The Python slice tok[2:-1]: characters from index 2 up to but
excluding the last character. -/
def slice2m1 (tok : List Char) : List Char :=
  (tok.take (tok.length - 1)).drop 2

/-- aa_pos from the notebook: the empty token is returned unchanged
(as a falsy string), otherwise int(tok[2:-1]). -/
def aa_pos (tok : List Char) : Except PyErr PosVal :=
  if tok = [] then .ok (.str tok)
  else
    match pyInt (slice2m1 tok) with
    | some n => .ok (.int n)
    | none => .error .malformedToken

/-- aa_letter from the notebook: the last character tok[-1].  The empty
token is passed through in Python; the code only consults the letter on
a nonempty token, so a character default suffices here. -/
def aa_letter (tok : List Char) : Char :=
  tok.getLastD ' '

/-- The effective index of a Python list access l[p] on a list of the
given length: negative p counts from the end. -/
def pyIndex (len : Nat) (p : Int) : Int :=
  if p < 0 then (len : Int) + p else p

/-- One iteration of the loop body of mut2seq on token tok: compute the
position and letter, run the two explicit position checks, then perform
the Python list assignment mutant_sequence[position] = letter, with
Python negative-index semantics and IndexError on an out-of-range
index.  A string-valued position (the empty token) reaches the
comparison with the length and raises TypeError. -/
def applyMut (wtLen : Nat) (seq : List Char) (tok : List Char) : Except PyErr (List Char) :=
  match aa_pos tok with
  | .error e => .error e
  | .ok (.str _) => .error .typeError
  | .ok (.int position) =>
      if position = 0 then .error .invalidPosition
      else if (wtLen : Int) < position then .error .invalidPosition
      else
        if 0 ≤ pyIndex seq.length position ∧ pyIndex seq.length position < (seq.length : Int) then
          .ok (seq.set (pyIndex seq.length position).toNat (aa_letter tok))
        else .error .indexError

/-- Fuelled worker for Python str.split(sep) with a nonempty separator:
scan left to right, cutting at each leftmost non-overlapping occurrence
of the separator.  The fuel bounds the number of scan steps; with a
nonempty separator every step strictly shortens the remaining input, so
an initial fuel of length + 1 is never exhausted. -/
def pySplitAux (sep : List Char) : Nat → List Char → List Char → List (List Char)
  | 0, rem, acc => [acc.reverse ++ rem]
  | fuel + 1, rem, acc =>
      if sep.isPrefixOf rem then
        acc.reverse :: pySplitAux sep fuel (rem.drop sep.length) []
      else
        match rem with
        | [] => [acc.reverse]
        | c :: rest => pySplitAux sep fuel rest (c :: acc)

/-- Python str.split(sep) for a nonempty separator. -/
def pySplit (s sep : List Char) : List (List Char) :=
  pySplitAux sep (s.length + 1) s []

/-- mut2seq from the notebook.  None and the empty string return the
reference unchanged before any splitting; an empty delimiter raises
ValueError inside str.split; otherwise every token is applied in list
order to a working copy of the reference, which is joined back into a
string at the end. -/
def mut2seq (mutation_string : Option String) (wt_sequence : String)
    (delimiter : String) : Except PyErr String :=
  match mutation_string with
  | none => .ok wt_sequence
  | some s =>
      if s = "" then .ok wt_sequence
      else if delimiter = "" then .error .emptySeparator
      else
        match (pySplit s.toList delimiter.toList).foldlM
            (applyMut wt_sequence.length) wt_sequence.toList with
        | .error e => .error e
        | .ok out => .ok (String.mk out)

/-- count_mutations from the notebook: 0 on the empty string, otherwise
the length of x.split(":"), always with the fixed separator colon.  On
None the equality test with the empty string is False and None.split
raises AttributeError. -/
def count_mutations (x : Option String) : Except PyErr Nat :=
  match x with
  | none => .error .attributeError
  | some s =>
      if s = "" then .ok 0
      else .ok (pySplit s.toList [':']).length

/-! ### Basic facts about the embedding -/

theorem string_length_mk (l : List Char) : (String.mk l).length = l.length := rfl

theorem string_toList_length (s : String) : s.toList.length = s.length := rfl

/-- A token applied by the loop body either errors or leaves the length
of the working copy unchanged (a single-cell list assignment). -/
theorem applyMut_ok_length (wtLen : Nat) (seq tok out : List Char)
    (h : applyMut wtLen seq tok = .ok out) : out.length = seq.length := by
  unfold applyMut at h
  split at h
  · cases h
  · cases h
  · split at h
    · cases h
    · split at h
      · cases h
      · split at h
        · injection h with h
          subst h
          exact List.length_set ..
        · cases h

/-- Folding the loop body over any token list either errors or leaves
the length of the working copy unchanged. -/
theorem foldlM_applyMut_length (wtLen : Nat) :
    ∀ (L : List (List Char)) (init out : List Char),
      L.foldlM (applyMut wtLen) init = .ok out → out.length = init.length := by
  intro L
  induction L with
  | nil =>
      intro init out h
      simp only [List.foldlM_nil, pure, Except.pure, Except.ok.injEq] at h
      subst h
      rfl
  | cons t L ih =>
      intro init out h
      rw [List.foldlM_cons] at h
      cases happ : applyMut wtLen init t with
      | error e =>
          rw [happ] at h
          simp only [bind, Except.bind] at h
          cases h
      | ok s =>
          rw [happ] at h
          simp only [bind, Except.bind] at h
          have h1 := ih s out h
          have h2 := applyMut_ok_length wtLen init t s happ
          omega

/-- A nonempty list is never a prefix of the empty list. -/
theorem isPrefixOf_nil_of_ne (sep : List Char) (h : sep ≠ []) :
    sep.isPrefixOf ([] : List Char) = false := by
  cases sep with
  | nil => exact absurd rfl h
  | cons a as => rfl

/-- Scanning a colon-free remainder never cuts: the whole remainder is
appended to the pending token. -/
theorem pySplitAux_no_colon :
    ∀ (fuel : Nat) (rem acc : List Char), rem.length < fuel → ':' ∉ rem →
      pySplitAux [':'] fuel rem acc = [acc.reverse ++ rem] := by
  intro fuel
  induction fuel with
  | zero => intro rem acc h _; omega
  | succ fuel ih =>
      intro rem acc h hnc
      cases rem with
      | nil => simp [pySplitAux, List.isPrefixOf]
      | cons c rest =>
          have hc : c ≠ ':' := fun hcc => hnc (hcc ▸ List.mem_cons_self c rest)
          have hrest : ':' ∉ rest := fun hm => hnc (List.mem_cons_of_mem c hm)
          have hpre : ([':'].isPrefixOf (c :: rest)) = false := by
            simp [List.isPrefixOf, Ne.symm hc]
          rw [pySplitAux, if_neg (by simp [hpre])]
          have := ih rest (c :: acc) (by simp at h ⊢; omega) hrest
          rw [this]
          simp

/-- Splitting on the colon yields one more token than there are colons. -/
theorem pySplitAux_colon_count :
    ∀ (fuel : Nat) (rem acc : List Char), rem.length < fuel →
      (pySplitAux [':'] fuel rem acc).length = rem.count ':' + 1 := by
  intro fuel
  induction fuel with
  | zero => intro rem acc h; omega
  | succ fuel ih =>
      intro rem acc h
      cases rem with
      | nil => simp [pySplitAux, List.isPrefixOf]
      | cons c rest =>
          by_cases hc : c = ':'
          · subst hc
            have hpre : ([':'].isPrefixOf (':' :: rest)) = true := by
              simp [List.isPrefixOf]
            rw [pySplitAux, if_pos (by simp [hpre])]
            simp only [List.length_cons, List.length_nil, List.drop_succ_cons,
              List.drop_zero]
            rw [ih rest [] (by simp at h ⊢; omega)]
            simp [List.count_cons]
          · have hpre : ([':'].isPrefixOf (c :: rest)) = false := by
              simp [List.isPrefixOf, Ne.symm hc]
            rw [pySplitAux, if_neg (by simp [hpre])]
            rw [ih rest (c :: acc) (by simp at h ⊢; omega)]
            simp [List.count_cons, hc]

/-- A colon-free string splits into the single token that is the whole
string. -/
theorem pySplit_single (s : List Char) (hnc : ':' ∉ s) :
    pySplit s [':'] = [s] := by
  unfold pySplit
  rw [pySplitAux_no_colon (s.length + 1) s [] (by omega) hnc]
  simp

/-- The empty string splits into one empty token, for every nonempty
separator. -/
theorem pySplit_nil (sep : List Char) (h : sep ≠ []) :
    pySplit [] sep = [[]] := by
  unfold pySplit pySplitAux
  rw [if_neg (by simp [isPrefixOf_nil_of_ne sep h])]
  simp

/-- Unfolding of mut2seq on a nonempty mutation string and a nonempty
delimiter: split, fold the loop body, join. -/
theorem mut2seq_some_eq (s R d : String) (h1 : s ≠ "") (h2 : d ≠ "") :
    mut2seq (some s) R d =
      match (pySplit s.toList d.toList).foldlM (applyMut R.length) R.toList with
      | .error e => .error e
      | .ok out => .ok (String.mk out) := by
  unfold mut2seq
  dsimp only
  rw [if_neg h1, if_neg h2]

/-- Folding the loop body over a one-token list is a single loop
iteration. -/
theorem foldlM_singleton (f : List Char → List Char → Except PyErr (List Char))
    (init x : List Char) : [x].foldlM f init = f init x := by
  cases h : f init x <;>
    simp [List.foldlM, h, bind, Except.bind, pure, Except.pure]

/-- The loop body on a token whose position parses to the integer p:
the two explicit checks, then the Python list write at the effective
index. -/
theorem applyMut_int (wtLen : Nat) (seq tok : List Char) (p : Int)
    (hp : aa_pos tok = .ok (.int p)) :
    applyMut wtLen seq tok =
      if p = 0 then .error .invalidPosition
      else if (wtLen : Int) < p then .error .invalidPosition
      else if 0 ≤ pyIndex seq.length p ∧ pyIndex seq.length p < (seq.length : Int) then
        .ok (seq.set (pyIndex seq.length p).toNat (aa_letter tok))
      else .error .indexError := by
  unfold applyMut
  rw [hp]

/-- mut2seq on a single colon-free token whose position parses to p,
with the colon delimiter: the full observable behaviour of one loop
iteration on the reference sequence. -/
theorem mut2seq_single_int (R tok : String) (p : Int)
    (hne : tok ≠ "") (hnc : ':' ∉ tok.toList)
    (hp : aa_pos tok.toList = .ok (.int p)) :
    mut2seq (some tok) R ":" =
      if p = 0 then .error .invalidPosition
      else if (R.length : Int) < p then .error .invalidPosition
      else if 0 ≤ pyIndex R.length p ∧ pyIndex R.length p < (R.length : Int) then
        .ok (String.mk (R.toList.set (pyIndex R.length p).toNat (aa_letter tok.toList)))
      else .error .indexError := by
  rw [mut2seq_some_eq tok R ":" hne (by decide)]
  have hc : (":" : String).toList = [':'] := rfl
  rw [hc, pySplit_single tok.toList hnc, foldlM_singleton,
    applyMut_int R.length R.toList tok.toList p hp]
  rw [string_toList_length]
  split_ifs <;> rfl

/-! ### Claims -/

/-- Claim C1 (code_bug). The spec and the docstring of aa_pos say that
parsing the token A111C yields 111 (all characters strictly between the
first and the last).  The code slices tok[2:-1], dropping the first two
characters, so it returns 11 instead and in particular never 111. -/
theorem c1_aa_pos_A111C :
    aa_pos "A111C".toList = .ok (.int 11) ∧
      aa_pos "A111C".toList ≠ .ok (.int 111) := by
  refine ⟨rfl, fun h => ?_⟩
  rw [show aa_pos "A111C".toList = .ok (.int 11) from rfl] at h
  injection h with h
  injection h with h
  exact absurd h (by decide)

/-- Claim C2 (code_bug). On a reference of length 112 and the single
token A111T, the code parses the position as 11 (slice tok[2:-1]) and
writes at index 11, not index 111: the result carries the letter at
index 11 and is unchanged at index 111. -/
theorem c2_mut2seq_A111T_misparse :
    mut2seq (some "A111T") (String.mk (List.replicate 112 'G')) ":"
        = .ok (String.mk ((List.replicate 112 'G').set 11 'T')) ∧
      ((List.replicate 112 'G').set 11 'T').getD 111 ' ' = 'G' ∧
      ((List.replicate 112 'G').set 11 'T').getD 11 ' ' = 'T' :=
  ⟨rfl, rfl, rfl⟩

/-- Claim C4 (code_bug). The spec scenario expects reconstruct of the
token A1T over the reference SKGE to return STGE; the code slices
tok[2:-1], which on the three-character token A1T is the empty string,
so int() fails and reconstruction raises a malformed-token error. -/
theorem c4_mut2seq_A1T_SKGE :
    mut2seq (some "A1T") "SKGE" ":" = .error .malformedToken := rfl

/-- Claim C5 (confirmed). For every reference sequence and every
delimiter, both the None mutation input and the empty mutation string
return the reference unchanged. -/
theorem c5_identity_empty_and_none (R delim : String) :
    mut2seq none R delim = .ok R ∧ mut2seq (some "") R delim = .ok R :=
  ⟨rfl, rfl⟩

/-- Claim C6 (confirmed). Whenever mut2seq returns successfully, the
returned mutant sequence has exactly the length of the reference
sequence, for every mutation-list input, reference and delimiter. -/
theorem c6_length_preserved (ms : Option String) (R delim out : String)
    (h : mut2seq ms R delim = .ok out) : out.length = R.length := by
  cases ms with
  | none =>
      simp only [mut2seq] at h
      injection h with h
      rw [← h]
  | some s =>
      by_cases hs : s = ""
      · subst hs
        simp only [mut2seq, if_pos rfl] at h
        injection h with h
        rw [← h]
      · by_cases hd : delim = ""
        · simp only [mut2seq, if_neg hs, if_pos hd] at h
          cases h
        · rw [mut2seq_some_eq s R delim hs hd] at h
          cases hfold : List.foldlM (applyMut R.length) R.toList (pySplit s.toList delim.toList) with
          | error e => rw [hfold] at h; simp at h
          | ok o =>
              rw [hfold] at h
              dsimp only at h
              injection h with h
              have hlen := foldlM_applyMut_length R.length _ _ _ hfold
              rw [string_toList_length] at hlen
              rw [← h, string_length_mk]
              exact hlen

/-- Witness for C6 at a concrete successful reconstruction. -/
theorem c6_length_preserved_witness : ("SKGC" : String).length = ("SKGE" : String).length :=
  c6_length_preserved (some "AB3C") "SKGE" ":" "SKGC" rfl

/-- Claim C3, counterexample. The token AB-1C parses to position -1,
which violates the claimed lower bound 1, yet reconstruction of SKGE
succeeds and silently writes the letter at the wrapped index 3. -/
theorem c3_counterexample :
    aa_pos "AB-1C".toList = .ok (.int (-1)) ∧
      mut2seq (some "AB-1C") "SKGE" ":" = .ok "SKGC" :=
  ⟨rfl, rfl⟩

/-- Claim C3 as amended. For a single colon-free token whose position
parses to the integer p, reconstruction raises the explicit
invalid-position error exactly when p is 0 or p exceeds the reference
length; a negative p with -length ≤ p ≤ -1 is not an error: the letter
is written at index length + p of the working copy. -/
theorem c3_invalid_position_characterization (R tok : String) (p : Int)
    (hne : tok ≠ "") (hnc : ':' ∉ tok.toList)
    (hp : aa_pos tok.toList = .ok (.int p)) :
    (mut2seq (some tok) R ":" = .error .invalidPosition ↔
        p = 0 ∨ (R.length : Int) < p) ∧
    (-(R.length : Int) ≤ p → p < 0 →
      mut2seq (some tok) R ":" =
        .ok (String.mk (R.toList.set ((R.length : Int) + p).toNat
              (aa_letter tok.toList)))) := by
  rw [mut2seq_single_int R tok p hne hnc hp]
  constructor
  · constructor
    · intro h
      by_cases h0 : p = 0
      · exact Or.inl h0
      · rw [if_neg h0] at h
        by_cases h1 : (R.length : Int) < p
        · exact Or.inr h1
        · rw [if_neg h1] at h
          split at h <;> simp at h
    · intro h
      rcases h with h0 | h1
      · rw [if_pos h0]
      · rw [if_neg (by omega), if_pos h1]
  · intro hge hlt
    rw [if_neg (by omega), if_neg (by omega)]
    have hidx : pyIndex R.length p = (R.length : Int) + p := by
      unfold pyIndex
      rw [if_pos hlt]
    rw [hidx, if_pos ⟨by omega, by omega⟩]

/-- Witness for the amended C3 at the concrete token AB-1C over SKGE. -/
theorem c3_witness :
    (mut2seq (some "AB-1C") "SKGE" ":" = .error .invalidPosition ↔
        (-1 : Int) = 0 ∨ (("SKGE" : String).length : Int) < (-1 : Int)) ∧
    (-(("SKGE" : String).length : Int) ≤ (-1 : Int) → (-1 : Int) < 0 →
      mut2seq (some "AB-1C") "SKGE" ":" =
        .ok (String.mk (("SKGE" : String).toList.set
              ((("SKGE" : String).length : Int) + (-1 : Int)).toNat
              (aa_letter "AB-1C".toList)))) :=
  c3_invalid_position_characterization "SKGE" "AB-1C" (-1) (by decide) (by decide) rfl

/-- Claim C9 (confirmed). A token whose position parses to a negative p
with -length ≤ p ≤ -1 raises no error: the letter lands at index
length + p of the working copy and the result keeps the length of the
reference. -/
theorem c9_negative_position_wraparound (R tok : String) (p : Int)
    (hne : tok ≠ "") (hnc : ':' ∉ tok.toList)
    (hp : aa_pos tok.toList = .ok (.int p))
    (hge : -(R.length : Int) ≤ p) (hle : p ≤ -1) :
    mut2seq (some tok) R ":" =
      .ok (String.mk (R.toList.set ((R.length : Int) + p).toNat
            (aa_letter tok.toList))) ∧
    (String.mk (R.toList.set ((R.length : Int) + p).toNat
          (aa_letter tok.toList))).length = R.length := by
  have hlt0 : p < 0 := by omega
  rw [mut2seq_single_int R tok p hne hnc hp]
  rw [if_neg (by omega), if_neg (by omega)]
  have hidx : pyIndex R.length p = (R.length : Int) + p := by
    unfold pyIndex
    rw [if_pos hlt0]
  rw [hidx, if_pos ⟨by omega, by omega⟩]
  refine ⟨rfl, ?_⟩
  rw [string_length_mk, List.length_set, string_toList_length]

/-- Witness for C9 at the concrete token XY-2Z over SKGE. -/
theorem c9_witness :
    mut2seq (some "XY-2Z") "SKGE" ":" =
      .ok (String.mk (("SKGE" : String).toList.set
            ((("SKGE" : String).length : Int) + (-2 : Int)).toNat
            (aa_letter "XY-2Z".toList))) ∧
    (String.mk (("SKGE" : String).toList.set
          ((("SKGE" : String).length : Int) + (-2 : Int)).toNat
          (aa_letter "XY-2Z".toList))).length = ("SKGE" : String).length :=
  c9_negative_position_wraparound "SKGE" "XY-2Z" (-2) (by decide) (by decide) rfl
    (by decide) (by decide)

/-- A string with an empty character list is the empty string. -/
theorem string_of_toList_nil (d : String) (h : d.toList = []) : d = "" := by
  cases d with
  | mk data =>
      cases data with
      | nil => rfl
      | cons c cs => cases h

/-- If some token of the list makes aa_pos fail, folding the loop body
never returns successfully: the fold stops at the first error. -/
theorem foldlM_mem_error (wtLen : Nat) (tokL : List Char)
    (herr : aa_pos tokL = .error .malformedToken) :
    ∀ (L : List (List Char)) (init o : List Char), tokL ∈ L →
      L.foldlM (applyMut wtLen) init ≠ .ok o := by
  intro L
  induction L with
  | nil => intro init o hmem; cases hmem
  | cons t L ih =>
      intro init o hmem hok
      rw [List.foldlM_cons] at hok
      cases happ : applyMut wtLen init t with
      | error e =>
          rw [happ] at hok
          simp [bind, Except.bind] at hok
      | ok st =>
          rw [happ] at hok
          simp only [bind, Except.bind] at hok
          rcases List.mem_cons.mp hmem with h | h
          · subst h
            unfold applyMut at happ
            rw [herr] at happ
            cases happ
          · exact ih st o h hok

/-- Claim C7 (confirmed). count_mutations returns 0 on the empty string
and, on every nonempty string, one more than the number of colons, that
is, the number of colon-separated tokens; in particular 1 for A111T and
2 for A111T:V130A. -/
theorem c7_count_mutations (s : String) (hne : s ≠ "") :
    count_mutations (some "") = .ok 0 ∧
    count_mutations (some s) = .ok (s.toList.count ':' + 1) ∧
    count_mutations (some "A111T") = .ok 1 ∧
    count_mutations (some "A111T:V130A") = .ok 2 := by
  refine ⟨rfl, ?_, rfl, rfl⟩
  unfold count_mutations
  dsimp only
  rw [if_neg hne]
  unfold pySplit
  rw [pySplitAux_colon_count (s.toList.length + 1) s.toList [] (by omega)]

/-- Witness for C7 at the two-token example. -/
theorem c7_witness :
    count_mutations (some "") = .ok 0 ∧
    count_mutations (some "A111T:V130A") =
      .ok (("A111T:V130A" : String).toList.count ':' + 1) ∧
    count_mutations (some "A111T") = .ok 1 ∧
    count_mutations (some "A111T:V130A") = .ok 2 :=
  c7_count_mutations "A111T:V130A" (by decide)

/-- Claim C8 (confirmed). Every nonempty token of at most three
characters makes aa_pos fail with the malformed-token error, because
the slice tok[2:-1] is empty, and reconstruction of any mutation list
containing such a token never returns successfully. -/
theorem c8_short_token_malformed (tokL : List Char) (s R d out : String)
    (hne : tokL ≠ []) (hlen : tokL.length ≤ 3) (hd : d ≠ "")
    (hmem : tokL ∈ pySplit s.toList d.toList) :
    aa_pos tokL = .error .malformedToken ∧ mut2seq (some s) R d ≠ .ok out := by
  have hsl : slice2m1 tokL = [] := by
    unfold slice2m1
    refine List.drop_eq_nil_of_le ?_
    rw [List.length_take]
    omega
  have haa : aa_pos tokL = .error .malformedToken := by
    unfold aa_pos
    rw [if_neg hne, hsl]
    rfl
  refine ⟨haa, ?_⟩
  intro hok
  by_cases hs : s = ""
  · subst hs
    rw [show ("" : String).toList = [] from rfl] at hmem
    rw [pySplit_nil d.toList (fun hdl => hd (string_of_toList_nil d hdl))] at hmem
    rcases List.mem_singleton.mp hmem with h
    exact hne h
  · rw [mut2seq_some_eq s R d hs hd] at hok
    cases hfold : List.foldlM (applyMut R.length) R.toList (pySplit s.toList d.toList) with
    | error e => rw [hfold] at hok; simp at hok
    | ok o =>
        exact foldlM_mem_error R.length tokL haa _ _ o hmem hfold

/-- Witness for C8 at the three-character token A1T. -/
theorem c8_witness :
    aa_pos "A1T".toList = .error .malformedToken ∧
      mut2seq (some "A1T") "SKGE" ":" ≠ .ok "SKGE" :=
  c8_short_token_malformed "A1T".toList "A1T" "SKGE" ":" "SKGE"
    (by decide) (by decide) (by decide) (by decide)

/-- Claim C10 (confirmed). count_mutations always splits on the fixed
colon: every nonempty colon-free string counts as a single token, no
matter what delimiter reconstruction used, and the None input is an
error, not 0. -/
theorem c10_count_mutations_fixed_colon (s : String)
    (hne : s ≠ "") (hnc : ':' ∉ s.toList) :
    count_mutations (some s) = .ok 1 ∧
      count_mutations none = .error .attributeError := by
  refine ⟨?_, rfl⟩
  unfold count_mutations
  dsimp only
  rw [if_neg hne, pySplit_single s.toList hnc]
  rfl

/-- Witness for C10 at a semicolon-delimited two-mutation string. -/
theorem c10_witness :
    count_mutations (some "A111T;V130A") = .ok 1 ∧
      count_mutations none = .error .attributeError :=
  c10_count_mutations_fixed_colon "A111T;V130A" (by decide) (by decide)
